import Mathlib

/-!
Shallow embedding of `src/Backend/Retrieval.py` (a FastAPI RAG chatbot
backed by MongoDB Atlas, langchain and Groq) and proofs about its
request handlers.

The three downstream providers (embedding model, vector store, LLM) are
external collaborators; the conversational chain that drives them is
modelled as an abstract function parameter `invoke`, and its documented
side effect on the conversation memory (append user turn then assistant
turn on success, nothing on failure) is modelled from the spec's call
contract, since langchain is a third-party dependency, not repository
code.
-/

namespace Retrieval

/-- A stored chat message, mirroring langchain's `BaseMessage`: a `type`
tag (for example "human" or "ai") and a text `content`. The process-wide
`memory.chat_memory.messages` is a `List Message`. -/
structure Message where
  type : String
  content : String
deriving Repr, DecidableEq

/-- A retrieved document chunk as seen by the endpoint: only its
`metadata` mapping matters (`doc.metadata` in the source), modelled as an
association list. -/
structure Document where
  metadata : List (String × String)
deriving Repr, DecidableEq

/-- Python's `str.strip()` with no argument (line 71,
`request.query.strip()`): removes leading and trailing whitespace
characters. -/
def strip (s : String) : String :=
  ⟨((s.data.dropWhile Char.isWhitespace).reverse.dropWhile
      Char.isWhitespace).reverse⟩

/-- Python's `mapping.get(key, default)` on a string-valued mapping. -/
def dictGet (m : List (String × String)) (k d : String) : String :=
  match m.lookup k with
  | some v => v
  | none => d

/-- Python's `os.path.basename` on POSIX: everything after the last
slash (empty when the path ends in a slash). -/
def basename (p : String) : String :=
  (p.splitOn "/").getLastD ""

/-- The mapping returned by `qa_chain.invoke`, as consumed by the
endpoint via `response.get("answer", "")` and
`response.get("source_documents", [])`: each field is `none` when the
corresponding key is absent from the result mapping. -/
structure ChainResponse where
  answer : Option String
  source_documents : Option (List Document)
deriving Repr, DecidableEq

/-- The body of `POST /chat`, pydantic model `ChatRequest` with a single
required string field `query`. -/
structure ChatRequest where
  query : String
deriving Repr, DecidableEq

/-- One record of the rendered `chat_history`: the source emits either
`{"user": msg.content}` or `{"bot": msg.content}`. -/
inductive HistoryRecord where
  | user (text : String)
  | bot (text : String)
deriving Repr, DecidableEq

/-- One entry of the `sources` list: `{"source": pdf_name}`. -/
structure SourceReference where
  source : String
deriving Repr, DecidableEq

/-- The JSON object returned by a successful `POST /chat`. -/
structure ChatResponse where
  answer : String
  sources : List SourceReference
  chat_history : List HistoryRecord
deriving Repr, DecidableEq

/-- Modelled from the spec: on success the conversational chain's
`ConversationBufferMemory` appends the user turn and then the assistant
turn to the conversation memory ("appends a user ChatTurn and an
assistant ChatTurn to ConversationMemory, in that order"); on failure it
appends nothing. langchain stores these as a "human" message holding the
question and an "ai" message holding the answer. -/
def save_context (mem : List Message) (query answer : String) : List Message :=
  mem ++ [⟨"human", query⟩, ⟨"ai", answer⟩]

/-- The per-message rendering from line 84 of the source:
`{"user": msg.content} if msg.type == "human" else {"bot": msg.content}`. -/
def renderMessage (msg : Message) : HistoryRecord :=
  if msg.type = "human" then .user msg.content else .bot msg.content

/-- The `sources` list built by the loop on lines 74-78: one entry per
retrieved document, `basename` of the `source` metadata value, with `""`
as the fallback when the key is absent. -/
def buildSources (docs : List Document) : List SourceReference :=
  docs.map (fun doc => ⟨basename (dictGet doc.metadata "source" "")⟩)

/-- The `POST /chat` handler (`chat_endpoint`, lines 69-87). The external
chain is the parameter `invoke`, a function of the current memory and the
(already trimmed) question that either fails with a downstream error or
returns the chain's result mapping. State passing makes the memory
mutation explicit: the handler returns the response (or the error) paired
with the memory after the call. -/
def chat_endpoint (invoke : List Message → String → Except String ChainResponse)
    (mem : List Message) (request : ChatRequest) :
    Except String ChatResponse × List Message :=
  let query := (strip request.query)
  match invoke mem query with
  | .error e => (.error e, mem)
  | .ok response =>
    let mem2 := save_context mem query (response.answer.getD "")
    let sources := buildSources (response.source_documents.getD [])
    (.ok ⟨response.answer.getD "", sources, mem2.map renderMessage⟩, mem2)

/-- A sequence of `POST /chat` calls against the shared memory, in call
order, failing as a whole at the first failing call (used to state the
round-trip property over N successful calls). Returns the responses in
call order paired with the final memory. -/
def chatSequence (invoke : List Message → String → Except String ChainResponse) :
    List ChatRequest → List Message → Except String (List ChatResponse × List Message)
  | [], mem => .ok ([], mem)
  | r :: rs, mem =>
    match chat_endpoint invoke mem r with
    | (.error e, _) => .error e
    | (.ok resp, mem2) =>
      match chatSequence invoke rs mem2 with
      | .error e => .error e
      | .ok (resps, memF) => .ok (resp :: resps, memF)

/-- The fixed payloads of the two GET routes. -/
structure MessagePayload where
  message : String
deriving Repr, DecidableEq

/-- The `GET /reset_memory` handler (lines 89-92): clears the memory and
returns a fixed confirmation payload. -/
def reset_memory (_mem : List Message) : MessagePayload × List Message :=
  (⟨"Memory cleared!"⟩, [])

/-- The `GET /` handler (lines 94-96): returns a fixed liveness payload
and touches no state. -/
def root (mem : List Message) : MessagePayload × List Message :=
  (⟨"RAG Chatbot (MongoDB Atlas) is running!"⟩, mem)

/-- Python's `os.getenv(key)` over an environment modelled as an
association list. -/
def os_getenv (env : List (String × String)) (k : String) : Option String :=
  env.lookup k

/-- Python's `os.getenv(key, default)`. -/
def os_getenvD (env : List (String × String)) (k d : String) : String :=
  (env.lookup k).getD d

/-- The three configuration values read at module load (lines 15-17). -/
structure Config where
  MONGODB_URI : Option String
  MONGODB_DB : String
  MONGODB_COLLECTION : String
deriving Repr, DecidableEq

/-- Lines 15-17 of the source: `MONGODB_URI` read with no default and no
validation, `MONGODB_DB` defaulting to "my_db", `MONGODB_COLLECTION`
defaulting to "vector_docs". -/
def loadConfig (env : List (String × String)) : Config :=
  ⟨os_getenv env "MONGODB_URI",
   os_getenvD env "MONGODB_DB" "my_db",
   os_getenvD env "MONGODB_COLLECTION" "vector_docs"⟩

/-- Modelled from the spec's external collaborator (pymongo, not
repository code): `MongoClient(host)` treats a `None` host as the default
"localhost:27017" and connects lazily, so its construction on line 31
raises no error whether or not a connection string was supplied. -/
def mongoClientHost (uri : Option String) : String :=
  uri.getD "mongodb://localhost:27017"

/-- The process state produced by the module-level startup code. -/
structure AppState where
  config : Config
  clientHost : String
  memory : List Message
deriving Repr, DecidableEq

/-- The module-level startup sequence as far as the Mongo configuration
is concerned (lines 14-33): read the environment, construct the client.
The source contains no conditional abort on a missing `MONGODB_URI`, so
startup yields a served application state for every environment. -/
def startup (env : List (String × String)) : Except String AppState :=
  let cfg := loadConfig env
  .ok ⟨cfg, mongoClientHost cfg.MONGODB_URI, []⟩

/-! Helper lemmas shared by the claim theorems. -/

/-- Unfolding of a successful `chat_endpoint` call: the response and the
post-call memory in terms of the chain's result. -/
theorem chat_endpoint_ok (invoke : List Message → String → Except String ChainResponse)
    (mem : List Message) (request : ChatRequest) (r : ChainResponse)
    (h : invoke mem (strip request.query) = .ok r) :
    chat_endpoint invoke mem request =
      (.ok ⟨r.answer.getD "", buildSources (r.source_documents.getD []),
          (save_context mem (strip request.query) (r.answer.getD "")).map renderMessage⟩,
        save_context mem (strip request.query) (r.answer.getD "")) := by
  simp [chat_endpoint, h]

/-- Unfolding of a failed `chat_endpoint` call. -/
theorem chat_endpoint_error (invoke : List Message → String → Except String ChainResponse)
    (mem : List Message) (request : ChatRequest) (e : String)
    (h : invoke mem (strip request.query) = .error e) :
    chat_endpoint invoke mem request = (.error e, mem) := by
  simp [chat_endpoint, h]

/-- A successful call leaves the memory equal to the renderable history
of its own response, two entries longer than before. -/
theorem chatSequence_ok_spec (invoke : List Message → String → Except String ChainResponse) :
    ∀ (reqs : List ChatRequest) (mem : List Message)
      (resps : List ChatResponse) (memF : List Message),
      chatSequence invoke reqs mem = .ok (resps, memF) →
      memF.length = mem.length + 2 * reqs.length ∧
      resps.length = reqs.length ∧
      ∀ last, resps.getLast? = some last → last.chat_history.length = memF.length := by
  intro reqs
  induction reqs with
  | nil =>
    intro mem resps memF h
    simp only [chatSequence, Except.ok.injEq, Prod.mk.injEq] at h
    obtain ⟨h1, h2⟩ := h
    subst h1; subst h2
    simp
  | cons r rs ih =>
    intro mem resps memF h
    cases hinv : invoke mem (strip r.query) with
    | error e =>
      rw [chatSequence, chat_endpoint_error invoke mem r e hinv] at h
      cases h
    | ok cr =>
      rw [chatSequence, chat_endpoint_ok invoke mem r cr hinv] at h
      simp only [] at h
      cases hrec : chatSequence invoke rs (save_context mem (strip r.query) (cr.answer.getD "")) with
      | error e => rw [hrec] at h; cases h
      | ok p =>
        obtain ⟨resps2, memF2⟩ := p
        rw [hrec] at h
        simp only [Except.ok.injEq, Prod.mk.injEq] at h
        obtain ⟨h1, h2⟩ := h
        subst h1; subst h2
        obtain ⟨hlen, hcount, hlast⟩ := ih _ _ _ hrec
        refine ⟨?_, ?_, ?_⟩
        · rw [hlen]; simp [save_context]; ring
        · simp [hcount]
        · intro last hl
          cases resps2 with
          | nil =>
            simp only [List.getLast?_singleton, Option.some.injEq] at hl
            subst hl
            have hrs : rs = [] := by
              cases rs with
              | nil => rfl
              | cons a as => simp at hcount
            subst hrs
            simp only [chatSequence, Except.ok.injEq, Prod.mk.injEq] at hrec
            obtain ⟨_, hmem⟩ := hrec
            rw [← hmem]
            simp [save_context]
          | cons b bs =>
            rw [List.getLast?_cons_cons] at hl
            exact hlast last hl

/-! Claim theorems. -/

/-- C1: if the downstream chain call made during `POST /chat` fails, the
request fails as a whole and the conversation memory is returned exactly
as it was before the request: no user turn and no assistant turn is
appended. -/
theorem chat_downstream_failure_is_atomic
    (invoke : List Message → String → Except String ChainResponse)
    (mem : List Message) (request : ChatRequest) (e : String)
    (h : invoke mem (strip request.query) = .error e) :
    chat_endpoint invoke mem request = (.error e, mem) := by
  simp [chat_endpoint, h]

/-- Witness for C1: a concrete failing chain leaves a one-message memory
untouched and surfaces the error. -/
theorem chat_downstream_failure_is_atomic_witness :
    chat_endpoint (fun _ _ => .error "downstream failure")
        [⟨"human", "hi"⟩] ⟨"q"⟩ =
      (.error "downstream failure", [⟨"human", "hi"⟩]) :=
  chat_downstream_failure_is_atomic (fun _ _ => .error "downstream failure")
    [⟨"human", "hi"⟩] ⟨"q"⟩ "downstream failure" rfl

/-- C2: a successful `POST /chat` appends exactly two turns to the
conversation memory — the user turn then the assistant turn, in that
order — and a sequence of N successful calls starting from empty memory
yields a `chat_history` of length exactly 2N in the Nth response. -/
theorem chat_appends_two_turns_roundtrip :
    (∀ (invoke : List Message → String → Except String ChainResponse)
       (mem : List Message) (request : ChatRequest) (r : ChainResponse),
       invoke mem (strip request.query) = .ok r →
       (chat_endpoint invoke mem request).2 =
         mem ++ [⟨"human", (strip request.query)⟩, ⟨"ai", r.answer.getD ""⟩]) ∧
    (∀ (invoke : List Message → String → Except String ChainResponse)
       (reqs : List ChatRequest) (resps : List ChatResponse) (memF : List Message),
       chatSequence invoke reqs [] = .ok (resps, memF) →
       memF.length = 2 * reqs.length ∧
       resps.length = reqs.length ∧
       ∀ last, resps.getLast? = some last →
         last.chat_history.length = 2 * reqs.length) := by
  constructor
  · intro invoke mem request r h
    rw [chat_endpoint_ok invoke mem request r h]
    rfl
  · intro invoke reqs resps memF h
    obtain ⟨h1, h2, h3⟩ := chatSequence_ok_spec invoke reqs [] resps memF h
    simp only [List.length_nil, Nat.zero_add] at h1
    exact ⟨h1, h2, fun last hl => h1 ▸ h3 last hl⟩

/-- Witness for C2: one successful call on a whitespace-padded query
appends the trimmed user turn then the assistant turn, and two successful
calls from empty memory leave a memory of length 4 equal to 2 times the
number of calls. -/
theorem chat_appends_two_turns_roundtrip_witness :
    ((chat_endpoint (fun _ _ => .ok ⟨some "ans", some []⟩) [] ⟨" hi "⟩).2 =
       [] ++ [⟨"human", "hi"⟩, ⟨"ai", "ans"⟩]) ∧
    (([⟨"human", "a"⟩, ⟨"ai", "ans"⟩, ⟨"human", "b"⟩, ⟨"ai", "ans"⟩] :
        List Message).length =
      2 * ([⟨"a"⟩, ⟨"b"⟩] : List ChatRequest).length) :=
  ⟨chat_appends_two_turns_roundtrip.1 (fun _ _ => .ok ⟨some "ans", some []⟩)
      [] ⟨" hi "⟩ ⟨some "ans", some []⟩ rfl,
   (chat_appends_two_turns_roundtrip.2 (fun _ _ => .ok ⟨some "ans", some []⟩)
      [⟨"a"⟩, ⟨"b"⟩]
      [⟨"ans", [], [.user "a", .bot "ans"]⟩,
       ⟨"ans", [], [.user "a", .bot "ans", .user "b", .bot "ans"]⟩]
      [⟨"human", "a"⟩, ⟨"ai", "ans"⟩, ⟨"human", "b"⟩, ⟨"ai", "ans"⟩]
      rfl).1⟩

/-- C3: the incoming query is trimmed of leading and trailing whitespace
before being handed to the pipeline (observed through a chain that
reflects the question it receives), and an empty or whitespace-only
query is passed through rather than rejected: whenever the chain
succeeds on the trimmed query — including the empty one — the endpoint
succeeds. -/
theorem chat_trims_query_and_accepts_empty :
    (∀ (mem : List Message) (q : String),
      (chat_endpoint (fun _ s => .error s) mem ⟨q⟩).1 = .error (strip q)) ∧
    (∀ (invoke : List Message → String → Except String ChainResponse)
       (mem : List Message) (q : String) (r : ChainResponse),
       invoke mem (strip q) = .ok r →
       ((chat_endpoint invoke mem ⟨q⟩).1).isOk = true) := by
  constructor
  · intro mem q
    rfl
  · intro invoke mem q r h
    rw [chat_endpoint_ok invoke mem ⟨q⟩ r h]
    rfl

/-- Witness for C3: a padded query reaches the chain trimmed, and a
whitespace-only query (trimming to the empty string) is forwarded and
answered rather than rejected. -/
theorem chat_trims_query_and_accepts_empty_witness :
    ((chat_endpoint (fun _ s => .error s) [] ⟨"  hello  "⟩).1 =
      .error "hello") ∧
    (((chat_endpoint (fun _ _ => .ok ⟨some "a", some []⟩) [] ⟨"   "⟩).1).isOk
      = true) :=
  ⟨chat_trims_query_and_accepts_empty.1 [] "  hello  ",
   chat_trims_query_and_accepts_empty.2 (fun _ _ => .ok ⟨some "a", some []⟩)
     [] "   " ⟨some "a", some []⟩ rfl⟩

/-- C4: on a successful `POST /chat` the `sources` list has exactly one
entry per retrieved chunk, in retrieval order with duplicates preserved:
entry i is the basename of chunk i's `source` metadata value, with the
empty string as fallback when that metadata key is absent. -/
theorem chat_sources_one_entry_per_chunk
    (invoke : List Message → String → Except String ChainResponse)
    (mem : List Message) (request : ChatRequest) (r : ChainResponse)
    (docs : List Document)
    (h : invoke mem (strip request.query) = .ok r)
    (hdocs : r.source_documents = some docs) :
    ∃ resp : ChatResponse, (chat_endpoint invoke mem request).1 = .ok resp ∧
      resp.sources.length = docs.length ∧
      ∀ i : Nat, resp.sources[i]? =
        (docs[i]?).map
          (fun doc => ⟨basename (dictGet doc.metadata "source" "")⟩) := by
  rw [chat_endpoint_ok invoke mem request r h]
  refine ⟨_, rfl, ?_, ?_⟩
  · simp [buildSources, hdocs]
  · intro i
    simp [buildSources, hdocs]

/-- Witness for C4: the spec's refund-policy example extended with a
duplicate chunk and a chunk with no `source` metadata: three chunks give
three source entries, in order, with the duplicate preserved and the
empty-string fallback applied. -/
theorem chat_sources_one_entry_per_chunk_witness :
    ∃ resp : ChatResponse,
      (chat_endpoint
          (fun _ _ => .ok ⟨some "Refunds are processed within 30 days.",
            some [⟨[("source", "/docs/policy.pdf")]⟩,
                  ⟨[("source", "/docs/policy.pdf")]⟩, ⟨[]⟩]⟩)
          [] ⟨"What is the refund policy?"⟩).1 = .ok resp ∧
      resp.sources.length =
        ([⟨[("source", "/docs/policy.pdf")]⟩,
          ⟨[("source", "/docs/policy.pdf")]⟩, ⟨[]⟩] : List Document).length ∧
      ∀ i : Nat, resp.sources[i]? =
        (([⟨[("source", "/docs/policy.pdf")]⟩,
           ⟨[("source", "/docs/policy.pdf")]⟩, ⟨[]⟩] : List Document)[i]?).map
          (fun doc => ⟨basename (dictGet doc.metadata "source" "")⟩) :=
  chat_sources_one_entry_per_chunk
    (fun _ _ => .ok ⟨some "Refunds are processed within 30 days.",
      some [⟨[("source", "/docs/policy.pdf")]⟩,
            ⟨[("source", "/docs/policy.pdf")]⟩, ⟨[]⟩]⟩)
    [] ⟨"What is the refund policy?"⟩
    ⟨some "Refunds are processed within 30 days.",
      some [⟨[("source", "/docs/policy.pdf")]⟩,
            ⟨[("source", "/docs/policy.pdf")]⟩, ⟨[]⟩]⟩
    [⟨[("source", "/docs/policy.pdf")]⟩,
     ⟨[("source", "/docs/policy.pdf")]⟩, ⟨[]⟩]
    rfl rfl

/-- C5: `GET /reset_memory` is idempotent: after one call the memory is
empty, a second call leaves it empty again with the identical result,
and every call returns the fixed payload `Memory cleared!` regardless of
the prior memory contents. -/
theorem reset_memory_idempotent_fixed_payload (mem : List Message) :
    (reset_memory mem).2 = [] ∧
    reset_memory ((reset_memory mem).2) = reset_memory mem ∧
    (reset_memory mem).1 = ⟨"Memory cleared!"⟩ := by
  simp [reset_memory]

/-- C6: `GET /` always returns exactly the fixed liveness payload and
has no side effect: the conversation memory is returned unchanged. -/
theorem root_fixed_payload_no_side_effects (mem : List Message) :
    root mem = (⟨"RAG Chatbot (MongoDB Atlas) is running!"⟩, mem) := rfl

/-- C7 counterexample: with an empty environment — so `MONGODB_URI` is
unset — startup still succeeds and produces an application state,
refuting the claim that a missing connection string is fatal at startup:
the source reads the variable with no default and no validation and
hands the resulting `None` to the lazily connecting Mongo client. -/
theorem startup_missing_uri_still_serves :
    os_getenv [] "MONGODB_URI" = none ∧
    startup [] =
      .ok ⟨⟨none, "my_db", "vector_docs"⟩, "mongodb://localhost:27017", []⟩ := by
  constructor <;> rfl

/-- C7 (amended): startup performs no check on `MONGODB_URI` and
succeeds for every environment, with `MONGODB_DB` defaulting to "my_db"
and `MONGODB_COLLECTION` defaulting to "vector_docs" when unset; a
missing `MONGODB_URI` merely leaves the client on its default host. -/
theorem startup_no_uri_check (env : List (String × String))
    (hdb : env.lookup "MONGODB_DB" = none)
    (hcol : env.lookup "MONGODB_COLLECTION" = none) :
    startup env =
      .ok ⟨⟨env.lookup "MONGODB_URI", "my_db", "vector_docs"⟩,
        mongoClientHost (env.lookup "MONGODB_URI"), []⟩ := by
  simp [startup, loadConfig, os_getenv, os_getenvD, hdb, hcol]

/-- Witness for the amended C7: an environment holding only a connection
string starts up with that string and both defaults. -/
theorem startup_no_uri_check_witness :
    startup [("MONGODB_URI", "mongodb://h")] =
      .ok ⟨⟨List.lookup "MONGODB_URI" [("MONGODB_URI", "mongodb://h")],
        "my_db", "vector_docs"⟩,
        mongoClientHost
          (List.lookup "MONGODB_URI" [("MONGODB_URI", "mongodb://h")]), []⟩ :=
  startup_no_uri_check [("MONGODB_URI", "mongodb://h")] (by decide) (by decide)

/-- C8: the `chat_history` rendering is total and two-valued: a
successful response renders every message of the post-call memory, a
message typed exactly "human" as a user record and a message of any
other type as a bot record, never omitting a message or producing a
third shape. -/
theorem chat_history_rendering_total_two_valued
    (invoke : List Message → String → Except String ChainResponse)
    (mem : List Message) (request : ChatRequest)
    (resp : ChatResponse) (mem2 : List Message)
    (h : chat_endpoint invoke mem request = (.ok resp, mem2)) :
    resp.chat_history.length = mem2.length ∧
    (∀ i : Nat, resp.chat_history[i]? = (mem2[i]?).map renderMessage) ∧
    (∀ msg : Message,
      (msg.type = "human" ∧ renderMessage msg = .user msg.content) ∨
      (msg.type ≠ "human" ∧ renderMessage msg = .bot msg.content)) := by
  have hhist : resp.chat_history = mem2.map renderMessage := by
    cases hinv : invoke mem (strip request.query) with
    | error e =>
      rw [chat_endpoint_error invoke mem request e hinv] at h
      simp at h
    | ok r =>
      rw [chat_endpoint_ok invoke mem request r hinv] at h
      simp only [Prod.mk.injEq, Except.ok.injEq] at h
      obtain ⟨h1, h2⟩ := h
      subst h2
      rw [← h1]
  refine ⟨by rw [hhist]; simp, ?_, ?_⟩
  · intro i
    rw [hhist]
    simp
  · intro msg
    by_cases ht : msg.type = "human"
    · exact Or.inl ⟨ht, by simp [renderMessage, ht]⟩
    · exact Or.inr ⟨ht, by simp [renderMessage, ht]⟩

/-- Witness for C8: a concrete successful call whose two-message memory
is rendered entry for entry, the "human" message as a user record and
the "ai" message as a bot record. -/
theorem chat_history_rendering_total_two_valued_witness :
    (ChatResponse.mk "a" [] [.user "q", .bot "a"]).chat_history.length =
      ([⟨"human", "q"⟩, ⟨"ai", "a"⟩] : List Message).length ∧
    (∀ i : Nat,
      (ChatResponse.mk "a" [] [.user "q", .bot "a"]).chat_history[i]? =
        (([⟨"human", "q"⟩, ⟨"ai", "a"⟩] : List Message)[i]?).map
          renderMessage) ∧
    (∀ msg : Message,
      (msg.type = "human" ∧ renderMessage msg = .user msg.content) ∨
      (msg.type ≠ "human" ∧ renderMessage msg = .bot msg.content)) :=
  chat_history_rendering_total_two_valued
    (fun _ _ => .ok ⟨some "a", some []⟩) [] ⟨"q"⟩
    ⟨"a", [], [.user "q", .bot "a"]⟩ [⟨"human", "q"⟩, ⟨"ai", "a"⟩] rfl

/-- C9: missing keys in the chain's result mapping never make the
endpoint fail: the call still succeeds, a missing "answer" key yields
the empty-string answer and a missing "source_documents" key yields an
empty sources list. -/
theorem chat_missing_result_keys_default
    (invoke : List Message → String → Except String ChainResponse)
    (mem : List Message) (request : ChatRequest) (r : ChainResponse)
    (h : invoke mem (strip request.query) = .ok r) :
    ∃ (resp : ChatResponse) (mem2 : List Message),
      chat_endpoint invoke mem request = (.ok resp, mem2) ∧
      (r.answer = none → resp.answer = "") ∧
      (r.source_documents = none → resp.sources = []) := by
  rw [chat_endpoint_ok invoke mem request r h]
  refine ⟨_, _, rfl, ?_, ?_⟩
  · intro ha
    simp [ha]
  · intro hs
    simp [buildSources, hs]

/-- Witness for C9: a chain result carrying neither key still yields a
successful response with empty answer and no sources. -/
theorem chat_missing_result_keys_default_witness :
    ∃ (resp : ChatResponse) (mem2 : List Message),
      chat_endpoint (fun _ _ => .ok ⟨none, none⟩) [] ⟨"q"⟩ =
        (.ok resp, mem2) ∧
      ((none : Option String) = none → resp.answer = "") ∧
      ((none : Option (List Document)) = none → resp.sources = []) :=
  chat_missing_result_keys_default (fun _ _ => .ok ⟨none, none⟩) [] ⟨"q"⟩
    ⟨none, none⟩ rfl

/-- C10: the returned `chat_history` is a snapshot of the memory taken
after the new pair is appended: it renders exactly the post-call memory,
and its last two entries are the user record holding the trimmed query
followed by the bot record holding the very answer string returned in
the response's answer field. -/
theorem chat_history_snapshot_last_two
    (invoke : List Message → String → Except String ChainResponse)
    (mem : List Message) (request : ChatRequest)
    (resp : ChatResponse) (mem2 : List Message)
    (h : chat_endpoint invoke mem request = (.ok resp, mem2)) :
    resp.chat_history = mem2.map renderMessage ∧
    resp.chat_history =
      mem.map renderMessage ++
        [.user (strip request.query), .bot resp.answer] := by
  cases hinv : invoke mem (strip request.query) with
  | error e =>
    rw [chat_endpoint_error invoke mem request e hinv] at h
    simp at h
  | ok r =>
    rw [chat_endpoint_ok invoke mem request r hinv] at h
    simp only [Prod.mk.injEq, Except.ok.injEq] at h
    obtain ⟨h1, h2⟩ := h
    subst h2
    constructor
    · rw [← h1]
    · rw [← h1]
      simp [save_context, renderMessage]

/-- Witness for C10: a concrete successful call whose history is the
rendered post-call memory and ends with the trimmed user query followed
by the returned answer. -/
theorem chat_history_snapshot_last_two_witness :
    (ChatResponse.mk "ans" [] [.user "hi", .bot "ans"]).chat_history =
      ([⟨"human", "hi"⟩, ⟨"ai", "ans"⟩] : List Message).map renderMessage ∧
    (ChatResponse.mk "ans" [] [.user "hi", .bot "ans"]).chat_history =
      ([] : List Message).map renderMessage ++
        [.user (strip (ChatRequest.mk " hi ").query),
         .bot (ChatResponse.mk "ans" [] [.user "hi", .bot "ans"]).answer] :=
  chat_history_snapshot_last_two (fun _ _ => .ok ⟨some "ans", some []⟩)
    [] ⟨" hi "⟩ ⟨"ans", [], [.user "hi", .bot "ans"]⟩
    [⟨"human", "hi"⟩, ⟨"ai", "ans"⟩] rfl

end Retrieval
